import Mathlib

/-!
Shallow embedding of `src/main.py` (RAG hotel-recommendation app).

The program reads seven required environment variables, connects to a
Couchbase cluster with a 5-second readiness wait, builds a RAG chain
(retriever | prompt | llm | output parser), reads one question from the
operator, and either displays the answer or lets the single top-level
handler display and log the error.  External services (embedding model,
vector store search, completion model) are modelled as oracle functions
supplied by a `World`; observable side effects (logging, Streamlit UI
calls, network calls) are modelled as an explicit event trace.
-/

namespace RagApp

/-- An opaque Couchbase cluster handle, identified by an id. -/
structure Cluster where
  id : Nat
deriving DecidableEq

/-- A `CouchbaseException` raised by the Couchbase SDK, carrying its message. -/
structure CouchbaseException where
  msg : String
deriving DecidableEq

/-- An error raised by an external service (embedding or completion provider). -/
structure ExternalError where
  msg : String
deriving DecidableEq

/-- Observable effects of one run of the program, in order of occurrence. -/
inductive Event
  | logError (msg : String)
  | logInfo (msg : String)
  | stTitle (text : String)
  | stWrite (text : String)
  | stError (msg : String)
  | netConnect (timeoutSeconds : Nat)
  | netEmbed (text : String)
  | netSearch (clusterId : Nat)
  | netComplete (prompt : String)
  | netClose (clusterId : Nat)
deriving DecidableEq

/-- Network effects: cluster connect, embedding call, similarity search,
completion call, connection close. -/
def Event.isNetwork : Event → Bool
  | .netConnect _ => true
  | .netEmbed _ => true
  | .netSearch _ => true
  | .netComplete _ => true
  | .netClose _ => true
  | _ => false

/-- The cluster-connect effect (`Cluster(...)` plus `wait_until_ready`). -/
def Event.isConnect : Event → Bool
  | .netConnect _ => true
  | _ => false

/-- The embedding-call effect, issued once per chain invocation. -/
def Event.isEmbed : Event → Bool
  | .netEmbed _ => true
  | _ => false

/-- The process environment: a partial map from variable names to values. -/
def Env : Type := String → Option String

/-- Result of `get_env_variable`: either the value, or process exit with a
code after emitting the reported events. -/
inductive GetEnvResult
  | ok (value : String)
  | exit (code : Nat) (events : List Event)
deriving DecidableEq

/-- The error message produced for a missing environment variable
(f-string at src/main.py line 46). -/
def missingMessage (varName : String) : String :=
  "Required environment variable \x27" ++ varName ++ "\x27 is missing."

/-- `get_env_variable` (src/main.py lines 30-50): look the variable up in the
environment; if absent, log the error, display it via `st.error`, and exit
the process with status 1; otherwise return the value. -/
def get_env_variable (env : Env) (varName : String) : GetEnvResult :=
  match env varName with
  | some value => .ok value
  | none =>
      .exit 1 [.logError (missingMessage varName), .stError (missingMessage varName)]

/-- The bound passed to `wait_until_ready` (timedelta(seconds=5),
src/main.py line 69). -/
def connectTimeoutSeconds : Nat := 5

/-- `initialize_cluster` (src/main.py lines 53-74): attempt the connection
(one `Cluster(...)` construction plus `wait_until_ready` with the 5-second
bound, modelled as one `netConnect` effect whose outcome the world
supplies); on success log and return the cluster, on `CouchbaseException`
log the error and re-raise the same exception. -/
def initialize_cluster (connectResult : Except CouchbaseException Cluster) :
    List Event × Except CouchbaseException Cluster :=
  match connectResult with
  | .ok cluster =>
      ([.netConnect connectTimeoutSeconds,
        .logInfo "Successfully connected to Couchbase cluster."], .ok cluster)
  | .error e =>
      ([.netConnect connectTimeoutSeconds,
        .logError ("Error connecting to Couchbase cluster: " ++ e.msg)], .error e)

/-- Leading fragment of the prompt template (src/main.py lines 115-118),
up to and not including the `{context}` placeholder. -/
def templateHead : String :=
  "You are a helpful bot. If you cannot answer based on the context provided, " ++
  "respond with a generic answer. Answer the question as truthfully as possible " ++
  "using the context below:\n\n"

/-- Middle fragment of the prompt template, between the `{context}` and
`{question}` placeholders. -/
def templateMid : String := "\n\nQuestion: "

/-- The fixed prompt template of `build_rag_chain` (src/main.py
lines 115-119). -/
def template : String :=
  templateHead ++ "{context}" ++ templateMid ++ "{question}"

/-- Modelled from the spec: the chain formats the retrieved snippets into a
single context block by joining them in order (section 4.5: "joins the
snippets into a single context block (order preserved)"); the joining
itself lives in the langchain library, outside src/. -/
def contextBlock (snippets : List String) : String :=
  String.intercalate "\n\n" snippets

/-- Prompt assembly: substitute the context block of the retrieved snippets
and the question into the fixed template (`ChatPromptTemplate.from_template`
formatting, src/main.py lines 120 and 126-131). -/
def assemble (snippets : List String) (question : String) : String :=
  templateHead ++ contextBlock snippets ++ templateMid ++ question

/-- `vector_store.as_retriever()` wiring: vectorize the query with the
embedding client, then ask the store for its similarity-ranked snippets. -/
def retrieveDocs {Vec : Type} (embed : String → Vec) (search : Vec → List String)
    (question : String) : List String :=
  search (embed question)

/-- The intermediate values produced by one chain invocation. -/
structure RagTrace (Vec : Type) where
  queryVec : Vec
  snippets : List String
  promptStr : String
  answerText : String

/-- One invocation of the RAG chain (src/main.py lines 126-131):
`{"context": retriever, "question": RunnablePassthrough()} | prompt | llm
| StrOutputParser()`, with the three external services abstracted as
functions. -/
def ragRun {Vec : Type} (embed : String → Vec) (search : Vec → List String)
    (complete : String → String) (question : String) : RagTrace Vec :=
  let v := embed question
  let docs := search v
  let p := assemble docs question
  { queryVec := v, snippets := docs, promptStr := p, answerText := complete p }

/-- `build_rag_chain` (src/main.py lines 77-132) returns `chain.invoke`:
the function from question to answer text. -/
def build_rag_chain {Vec : Type} (embed : String → Vec) (search : Vec → List String)
    (complete : String → String) : String → String :=
  fun question => (ragRun embed search complete question).answerText

/-- The oracles one run of `main` consults: the outcome of the cluster
connection, the three external services (each of which may fail with an
error that the source propagates to the top-level handler), and the
operator input. -/
structure World (Vec : Type) where
  connectResult : Except CouchbaseException Cluster
  embedResult : String → Except ExternalError Vec
  searchResult : Vec → Except ExternalError (List String)
  completeResult : String → Except ExternalError String
  questionInput : String

/-- Final state of the process after one run of `main`. -/
inductive Outcome
  | exited (code : Nat)
  | finished
deriving DecidableEq

/-- The names read by `main` (src/main.py lines 141-147), in order. -/
def requiredVars : List String :=
  ["COUCHBASE_CONNECTION_STRING", "COUCHBASE_USERNAME", "COUCHBASE_PASSWORD",
   "COUCHBASE_BUCKET", "COUCHBASE_SCOPE", "COUCHBASE_COLLECTION",
   "COUCHBASE_SEARCH_INDEX"]

/-- The sequence of `get_env_variable` calls at the top of `main`: stops at
the first missing variable with its exit events and code, otherwise
returns all values in order. -/
def readEnvVars (env : Env) : List String → Except (List Event × Nat) (List String)
  | [] => .ok []
  | n :: rest =>
    match get_env_variable env n with
    | .ok v => (readEnvVars env rest).map (fun vs => v :: vs)
    | .exit c es => .error (es, c)

/-- The `st.title` and introductory `st.write` at the top of `main`
(src/main.py lines 137-138). -/
def titleEvents : List Event :=
  [.stTitle "Hotel Recommendation System",
   .stWrite "Ask a question about hotels and get recommendations based on context."]

/-- The modelled `traceback.format_exc()` text for an exception description:
the full diagnostic trace embedding the exception verbatim. -/
def tracebackOf (excDescription : String) : String :=
  "Traceback (most recent call last):\n" ++ excDescription

/-- The single top-level `except Exception` handler of `main` (src/main.py
lines 164-168): display a generic error, display the full traceback, and
log the exception. -/
def topHandlerEvents (excDescription : String) : List Event :=
  [.stError "An error occurred while processing your request.",
   .stError (tracebackOf excDescription),
   .logError ("Exception occurred: " ++ excDescription)]

/-- The body of the `try` block of `main` (src/main.py lines 149-168), run
after all environment variables were read successfully: connect, build the
chain, read the question, and invoke the chain when the question is
non-empty (`if question:`).  The chain invocation issues the embedding
call, then the similarity search, then the completion call; a failure of
any of the three aborts the invocation at that stage (the calls already
issued stay in the trace, later ones are never made) and the exception is
caught by the single top-level handler. -/
def mainAfterEnv {Vec : Type} (w : World Vec) : List Event × Outcome :=
  match initialize_cluster w.connectResult with
  | (es, .error e) =>
      (es ++ topHandlerEvents ("CouchbaseException: " ++ e.msg), .finished)
  | (es, .ok cluster) =>
      let question := w.questionInput
      if question = "" then
        (es, .finished)
      else
        match w.embedResult question with
        | .error err =>
            (es ++ [.netEmbed question] ++ topHandlerEvents err.msg, .finished)
        | .ok v =>
            match w.searchResult v with
            | .error err =>
                (es ++ [.netEmbed question, .netSearch cluster.id]
                  ++ topHandlerEvents err.msg, .finished)
            | .ok docs =>
                let p := assemble docs question
                match w.completeResult p with
                | .ok answer =>
                    (es ++ [.netEmbed question, .netSearch cluster.id, .netComplete p]
                      ++ [.stWrite "Response:", .stWrite answer,
                          .logInfo "Query processed successfully."], .finished)
                | .error err =>
                    (es ++ [.netEmbed question, .netSearch cluster.id, .netComplete p]
                      ++ topHandlerEvents err.msg, .finished)

/-- One run of `main` (src/main.py lines 135-168): title and intro, the
seven required environment variables (exiting with status 1 at the first
missing one), then the `try` block. -/
def mainRun {Vec : Type} (env : Env) (w : World Vec) : List Event × Outcome :=
  match readEnvVars env requiredVars with
  | .error (es, c) => (titleEvents ++ es, .exited c)
  | .ok _ => (titleEvents ++ (mainAfterEnv w).1, (mainAfterEnv w).2)

/-- One process run of the Streamlit app: the script is re-executed in
full for every operator interaction (Streamlit rerun semantics), so a
process serving several questions is a sequence of complete `main`
executions, one `World` per interaction; the process trace is their
concatenation. -/
def processTrace {Vec : Type} (env : Env) : List (World Vec) → List Event
  | [] => []
  | w :: rest => (mainRun env w).1 ++ processTrace env rest

/-- An environment built from an association list, for concrete runs. -/
def envOf (pairs : List (String × String)) : Env :=
  fun n => pairs.lookup n

/-- A concrete environment providing all seven required variables. -/
def envFull : Env :=
  envOf [("COUCHBASE_CONNECTION_STRING", "couchbase://localhost"),
         ("COUCHBASE_USERNAME", "admin"),
         ("COUCHBASE_PASSWORD", "secret"),
         ("COUCHBASE_BUCKET", "travel-sample"),
         ("COUCHBASE_SCOPE", "inventory"),
         ("COUCHBASE_COLLECTION", "hotel"),
         ("COUCHBASE_SEARCH_INDEX", "hotel-index")]

/-- A concrete environment where only COUCHBASE_BUCKET is missing. -/
def envMissingBucket : Env :=
  envOf [("COUCHBASE_CONNECTION_STRING", "couchbase://localhost"),
         ("COUCHBASE_USERNAME", "admin"),
         ("COUCHBASE_PASSWORD", "secret"),
         ("COUCHBASE_SCOPE", "inventory"),
         ("COUCHBASE_COLLECTION", "hotel"),
         ("COUCHBASE_SEARCH_INDEX", "hotel-index")]

/-- A concrete environment where COUCHBASE_BUCKET is set to the empty
string and every other required variable has a non-empty value. -/
def envEmptyBucket : Env :=
  envOf [("COUCHBASE_CONNECTION_STRING", "couchbase://localhost"),
         ("COUCHBASE_USERNAME", "admin"),
         ("COUCHBASE_PASSWORD", "secret"),
         ("COUCHBASE_BUCKET", ""),
         ("COUCHBASE_SCOPE", "inventory"),
         ("COUCHBASE_COLLECTION", "hotel"),
         ("COUCHBASE_SEARCH_INDEX", "hotel-index")]

/-- A concrete world where everything succeeds. -/
def unitWorld : World Unit where
  connectResult := .ok ⟨0⟩
  embedResult := fun _ => .ok ()
  searchResult := fun _ => .ok ["Great ocean view, friendly staff"]
  completeResult := fun _ => .ok "Guests praise the ocean view."
  questionInput := "What do guests say about the view?"

/-- A second all-success world, for a later question of the same process
run. -/
def unitWorld2 : World Unit where
  connectResult := .ok ⟨1⟩
  embedResult := fun _ => .ok ()
  searchResult := fun _ => .ok ["Breakfast was excellent"]
  completeResult := fun _ => .ok "Guests enjoyed the breakfast."
  questionInput := "Is the breakfast good?"

/-- A concrete world where the cluster connection fails. -/
def worldConnFail : World Unit where
  connectResult := .error ⟨"timeout"⟩
  embedResult := fun _ => .ok ()
  searchResult := fun _ => .ok []
  completeResult := fun _ => .ok ""
  questionInput := "What do guests say about the view?"

/-- A concrete world where the embedding service raises an error. -/
def worldEmbedFail : World Unit where
  connectResult := .ok ⟨0⟩
  embedResult := fun _ => .error ⟨"embedding auth failure"⟩
  searchResult := fun _ => .ok ["Great ocean view, friendly staff"]
  completeResult := fun _ => .ok "Guests praise the ocean view."
  questionInput := "What do guests say about the view?"

/-- A concrete world where the similarity search raises an error. -/
def worldSearchFail : World Unit where
  connectResult := .ok ⟨0⟩
  embedResult := fun _ => .ok ()
  searchResult := fun _ => .error ⟨"search index unavailable"⟩
  completeResult := fun _ => .ok "Guests praise the ocean view."
  questionInput := "What do guests say about the view?"

/-- A concrete world where the completion service raises an error. -/
def worldCompleteFail : World Unit where
  connectResult := .ok ⟨0⟩
  embedResult := fun _ => .ok ()
  searchResult := fun _ => .ok ["Great ocean view, friendly staff"]
  completeResult := fun _ => .error ⟨"quota exceeded"⟩
  questionInput := "What do guests say about the view?"

/-- A concrete world where the operator leaves the question empty. -/
def worldEmptyQuestion : World Unit where
  connectResult := .ok ⟨0⟩
  embedResult := fun _ => .ok ()
  searchResult := fun _ => .ok ["Great ocean view, friendly staff"]
  completeResult := fun _ => .ok "Guests praise the ocean view."
  questionInput := ""

/-- The observable outcome required when an external service call fails
inside the chain: the run finishes without exiting (the process can accept
a subsequent question), the top-level handler displays the full traceback
embedding the error message verbatim and logs it, and no answer is ever
written (the only stWrite of the whole run is the fixed introduction
line). -/
def errorDisplayedNoAnswer {Vec : Type} (env : Env) (w : World Vec)
    (excMsg : String) : Prop :=
  (mainRun env w).2 = .finished
  ∧ Event.stError (tracebackOf excMsg) ∈ (mainRun env w).1
  ∧ Event.logError ("Exception occurred: " ++ excMsg) ∈ (mainRun env w).1
  ∧ ∀ s, Event.stWrite s ∈ (mainRun env w).1
      → s = "Ask a question about hotels and get recommendations based on context."

/-- If every name of the list is present in the environment, the sequence
of `get_env_variable` calls succeeds. -/
theorem readEnvVars_ok_of_present (env : Env) :
    ∀ names : List String, (∀ n ∈ names, (env n).isSome) →
      ∃ vs, readEnvVars env names = .ok vs := by
  intro names
  induction names with
  | nil => intro _; exact ⟨[], rfl⟩
  | cons n rest ih =>
    intro h
    obtain ⟨v, hv⟩ := Option.isSome_iff_exists.mp (h n (List.mem_cons_self n rest))
    obtain ⟨vs, hvs⟩ := ih (fun m hm => h m (List.mem_cons_of_mem n hm))
    exact ⟨v :: vs, by simp [readEnvVars, get_env_variable, hv, hvs, Except.map]⟩

/-- If some name of the list is absent from the environment, the sequence
of `get_env_variable` calls exits with status 1 after the error events of
one missing variable. -/
theorem readEnvVars_error_of_missing (env : Env) :
    ∀ names : List String, (∃ n ∈ names, env n = none) →
      ∃ m, env m = none ∧ m ∈ names ∧
        readEnvVars env names
          = .error ([.logError (missingMessage m), .stError (missingMessage m)], 1) := by
  intro names
  induction names with
  | nil => rintro ⟨n, hn, _⟩; exact absurd hn (List.not_mem_nil n)
  | cons n rest ih =>
    rintro ⟨m, hm, hmnone⟩
    cases henv : env n with
    | none =>
      exact ⟨n, henv, List.mem_cons_self n rest,
        by simp [readEnvVars, get_env_variable, henv]⟩
    | some v =>
      have hmrest : m ∈ rest := by
        rcases List.mem_cons.mp hm with h | h
        · subst h; rw [henv] at hmnone; exact absurd hmnone (by simp)
        · exact h
      obtain ⟨m2, hm2none, hm2mem, hm2eq⟩ := ih ⟨m, hmrest, hmnone⟩
      exact ⟨m2, hm2none, List.mem_cons_of_mem n hm2mem,
        by simp [readEnvVars, get_env_variable, henv, hm2eq, Except.map]⟩

/-- C1: the chain returned by build_rag_chain is the strict sequential
composition embed, then retrieve, then assemble, then complete: for every
question the answer is the completion of the prompt assembled from the
snippets retrieved for the embedded question, each stage consuming exactly
the previous stage output, with no branching and no state besides the
question. -/
theorem chain_is_sequential_composition {Vec : Type} (embed : String → Vec)
    (search : Vec → List String) (complete : String → String) (question : String) :
    (ragRun embed search complete question).queryVec = embed question
    ∧ (ragRun embed search complete question).snippets
        = search ((ragRun embed search complete question).queryVec)
    ∧ (ragRun embed search complete question).promptStr
        = assemble ((ragRun embed search complete question).snippets) question
    ∧ (ragRun embed search complete question).answerText
        = complete ((ragRun embed search complete question).promptStr)
    ∧ build_rag_chain embed search complete question
        = complete (assemble (search (embed question)) question) :=
  ⟨rfl, rfl, rfl, rfl, rfl⟩

/-- C2: prompt assembly substitutes the context block and the question into
the fixed template whose placeholder form is exactly `template`; it is
deterministic, and on the empty snippet list it yields the template with an
empty context section, otherwise intact. -/
theorem assemble_template_substitution (snippets : List String) (question : String) :
    assemble snippets question
        = templateHead ++ contextBlock snippets ++ templateMid ++ question
    ∧ template = templateHead ++ "{context}" ++ templateMid ++ "{question}"
    ∧ (∀ s q, s = snippets → q = question →
        assemble s q = assemble snippets question)
    ∧ assemble [] question = templateHead ++ templateMid ++ question := by
  refine ⟨rfl, rfl, ?_, ?_⟩
  · rintro s q rfl rfl; rfl
  · show templateHead ++ contextBlock [] ++ templateMid ++ question = _
    have h : contextBlock [] = "" := rfl
    rw [h]
    simp

/-- Witness for C2 at a concrete snippet list and question. -/
theorem assemble_template_substitution_witness :
    assemble ["Great ocean view, friendly staff"] "What do guests say about the view?"
      = templateHead ++ contextBlock ["Great ocean view, friendly staff"]
        ++ templateMid ++ "What do guests say about the view?" :=
  (assemble_template_substitution ["Great ocean view, friendly staff"]
    "What do guests say about the view?").1

/-- C3: for every variable name, if the variable is unset get_env_variable
exits the process with status 1 after a diagnostic log message and a
user-visible error message that both contain the exact variable name; if
it is set, the value is returned. -/
theorem get_env_variable_spec (env : Env) (varName : String) :
    (env varName = none →
      get_env_variable env varName
          = .exit 1 [.logError (missingMessage varName), .stError (missingMessage varName)]
      ∧ ∃ pre post, missingMessage varName = pre ++ varName ++ post)
    ∧ (∀ v, env varName = some v → get_env_variable env varName = .ok v) := by
  constructor
  · intro h
    exact ⟨by simp [get_env_variable, h],
      "Required environment variable \x27", "\x27 is missing.", rfl⟩
  · intro v h
    simp [get_env_variable, h]

/-- Witness for C3: both branches at concrete environments. -/
theorem get_env_variable_spec_witness :
    get_env_variable envFull "COUCHBASE_BUCKET" = .ok "travel-sample"
    ∧ get_env_variable envMissingBucket "COUCHBASE_BUCKET"
        = .exit 1 [.logError (missingMessage "COUCHBASE_BUCKET"),
                   .stError (missingMessage "COUCHBASE_BUCKET")] :=
  ⟨(get_env_variable_spec envFull "COUCHBASE_BUCKET").2 "travel-sample" (by decide),
   ((get_env_variable_spec envMissingBucket "COUCHBASE_BUCKET").1 (by decide)).1⟩

/-- C8: the snippet list handed to the prompt assembler is exactly the list
the store's similarity search returned for the embedded query: the same
list, in the same order, with nothing reordered, filtered out, or added. -/
theorem retrieve_preserves_store_order {Vec : Type} (embed : String → Vec)
    (search : Vec → List String) (complete : String → String) (question : String) :
    (ragRun embed search complete question).snippets = search (embed question)
    ∧ (ragRun embed search complete question).promptStr
        = assemble (search (embed question)) question
    ∧ retrieveDocs embed search question = search (embed question) :=
  ⟨rfl, rfl, rfl⟩

/-- C4: if exactly one required configuration key is absent from the
environment, the run exits with status 1 and its trace contains no network
effect at all: no store connect, no embedding, retrieval, or completion
call. -/
theorem missing_key_exits_before_network {Vec : Type} (env : Env) (w : World Vec)
    (name : String) (hmem : name ∈ requiredVars) (hnone : env name = none)
    (hothers : ∀ m ∈ requiredVars, m ≠ name → (env m).isSome) :
    (mainRun env w).2 = .exited 1
    ∧ ∀ ev ∈ (mainRun env w).1, ev.isNetwork = false := by
  obtain ⟨m, hmnone, hmmem, heq⟩ :=
    readEnvVars_error_of_missing env requiredVars ⟨name, hmem, hnone⟩
  constructor
  · simp [mainRun, heq]
  · intro ev hev
    simp [mainRun, heq, titleEvents] at hev
    rcases hev with h | h | h | h <;> subst h <;> rfl

/-- Witness for C4: with only COUCHBASE_BUCKET missing, the run exits with
status 1. -/
theorem missing_key_exits_before_network_witness :
    (mainRun envMissingBucket unitWorld).2 = .exited 1 :=
  (missing_key_exits_before_network envMissingBucket unitWorld "COUCHBASE_BUCKET"
    (by decide) (by decide) (by decide)).1

/-- C5 counterexample: pipeline construction is reached (the cluster
connect effect is in the trace) in an environment where the required key
COUCHBASE_BUCKET is set to the empty string, so reaching construction does
not guarantee every required key is non-empty. -/
theorem construction_reached_with_empty_value :
    Event.netConnect connectTimeoutSeconds ∈ (mainRun envEmptyBucket unitWorld).1
    ∧ envEmptyBucket "COUCHBASE_BUCKET" = some ""
    ∧ "COUCHBASE_BUCKET" ∈ requiredVars := by
  refine ⟨?_, by decide, by decide⟩
  decide

/-- C5 amended: whenever pipeline construction is reached, every required
key is present in the environment (absence is fatal before construction);
presence may however be with an empty value, which is not checked. -/
theorem construction_requires_all_keys_present {Vec : Type} (env : Env) (w : World Vec)
    (h : Event.netConnect connectTimeoutSeconds ∈ (mainRun env w).1) :
    ∀ n ∈ requiredVars, (env n).isSome := by
  intro n hn
  by_contra hns
  have hnone : env n = none := Option.not_isSome_iff_eq_none.mp hns
  obtain ⟨m, hmnone, hmmem, heq⟩ :=
    readEnvVars_error_of_missing env requiredVars ⟨n, hn, hnone⟩
  simp [mainRun, heq, titleEvents] at h

/-- Witness for C5 amended at a concrete full environment. -/
theorem construction_requires_all_keys_present_witness :
    (envFull "COUCHBASE_BUCKET").isSome :=
  construction_requires_all_keys_present envFull unitWorld (by decide)
    "COUCHBASE_BUCKET" (by decide)

/-- C6: the connect attempt uses the 5-second readiness bound and is made
exactly once; initialize_cluster returns the live handle on success and
re-raises the same exception on failure; and when the connection fails in
main, the error surfaces at the top-level handler (displayed with its full
traceback and logged) with still exactly one connect attempt in the whole
run, never a retry. -/
theorem connect_bounded_and_surfaced {Vec : Type}
    (r : Except CouchbaseException Cluster) (env : Env) (w : World Vec)
    (e : CouchbaseException)
    (hall : ∀ n ∈ requiredVars, (env n).isSome)
    (hconn : w.connectResult = .error e) :
    connectTimeoutSeconds = 5
    ∧ (initialize_cluster r).2 = r
    ∧ Event.netConnect connectTimeoutSeconds ∈ (initialize_cluster r).1
    ∧ (initialize_cluster r).1.countP Event.isConnect = 1
    ∧ (mainRun env w).1.countP Event.isConnect = 1
    ∧ Event.stError (tracebackOf ("CouchbaseException: " ++ e.msg)) ∈ (mainRun env w).1
    ∧ Event.logError ("Exception occurred: " ++ ("CouchbaseException: " ++ e.msg))
        ∈ (mainRun env w).1
    ∧ (mainRun env w).2 = .finished := by
  obtain ⟨vs, hvs⟩ := readEnvVars_ok_of_present env requiredVars hall
  refine ⟨rfl, ?_, ?_, ?_, ?_, ?_, ?_, ?_⟩
  · cases r <;> rfl
  · cases r <;> simp [initialize_cluster]
  · cases r <;> simp [initialize_cluster, Event.isConnect, List.countP_cons]
  · simp [mainRun, hvs, mainAfterEnv, initialize_cluster, hconn, titleEvents,
      topHandlerEvents, Event.isConnect, List.countP_cons, List.countP_append]
  · simp [mainRun, hvs, mainAfterEnv, initialize_cluster, hconn, titleEvents,
      topHandlerEvents]
  · simp [mainRun, hvs, mainAfterEnv, initialize_cluster, hconn, titleEvents,
      topHandlerEvents]
  · simp [mainRun, hvs, mainAfterEnv, initialize_cluster, hconn]

/-- Witness for C6 at a concrete failing connection. -/
theorem connect_bounded_and_surfaced_witness :
    (initialize_cluster (Except.error ⟨"timeout"⟩)).2
      = (Except.error ⟨"timeout"⟩ : Except CouchbaseException Cluster)
    ∧ (mainRun envFull worldConnFail).2 = .finished :=
  ⟨(connect_bounded_and_surfaced (Except.error ⟨"timeout"⟩) envFull worldConnFail
      ⟨"timeout"⟩ (by decide) rfl).2.1,
   (connect_bounded_and_surfaced (Except.error ⟨"timeout"⟩) envFull worldConnFail
      ⟨"timeout"⟩ (by decide) rfl).2.2.2.2.2.2.2⟩

/-- C7: whichever of the three external services (embedding, similarity
search, completion) raises an error mid-call, the run displays no answer
(the only stWrite in the trace is the fixed introduction line), the error
message reaches the top-level handler verbatim inside the displayed
traceback and the log, the calls after the failing stage are never issued,
and the process does not exit, so it can accept a subsequent question. -/
theorem external_service_error_no_answer {Vec : Type} (env : Env) (w : World Vec)
    (c : Cluster) (err : ExternalError)
    (hall : ∀ n ∈ requiredVars, (env n).isSome)
    (hconn : w.connectResult = .ok c)
    (hq : ¬ w.questionInput = "") :
    (w.embedResult w.questionInput = .error err →
      errorDisplayedNoAnswer env w err.msg
      ∧ (mainRun env w).1
          = titleEvents
            ++ ([.netConnect connectTimeoutSeconds,
                 .logInfo "Successfully connected to Couchbase cluster."]
              ++ [.netEmbed w.questionInput] ++ topHandlerEvents err.msg))
    ∧ (∀ v, w.embedResult w.questionInput = .ok v →
        w.searchResult v = .error err →
      errorDisplayedNoAnswer env w err.msg
      ∧ (mainRun env w).1
          = titleEvents
            ++ ([.netConnect connectTimeoutSeconds,
                 .logInfo "Successfully connected to Couchbase cluster."]
              ++ [.netEmbed w.questionInput, .netSearch c.id]
              ++ topHandlerEvents err.msg))
    ∧ (∀ v docs, w.embedResult w.questionInput = .ok v →
        w.searchResult v = .ok docs →
        w.completeResult (assemble docs w.questionInput) = .error err →
      errorDisplayedNoAnswer env w err.msg
      ∧ (mainRun env w).1
          = titleEvents
            ++ ([.netConnect connectTimeoutSeconds,
                 .logInfo "Successfully connected to Couchbase cluster."]
              ++ [.netEmbed w.questionInput, .netSearch c.id,
                  .netComplete (assemble docs w.questionInput)]
              ++ topHandlerEvents err.msg)) := by
  obtain ⟨vs, hvs⟩ := readEnvVars_ok_of_present env requiredVars hall
  refine ⟨?_, ?_, ?_⟩
  · intro he
    have htr : (mainRun env w).1
        = titleEvents
          ++ ([.netConnect connectTimeoutSeconds,
               .logInfo "Successfully connected to Couchbase cluster."]
            ++ [.netEmbed w.questionInput] ++ topHandlerEvents err.msg) := by
      simp [mainRun, hvs, mainAfterEnv, initialize_cluster, hconn, hq, he]
    refine ⟨⟨?_, ?_, ?_, ?_⟩, htr⟩
    · simp [mainRun, hvs, mainAfterEnv, initialize_cluster, hconn, hq, he]
    · rw [htr]; simp [titleEvents, topHandlerEvents]
    · rw [htr]; simp [titleEvents, topHandlerEvents]
    · intro s hs
      rw [htr] at hs
      simp [titleEvents, topHandlerEvents] at hs
      exact hs
  · intro v hv hs
    have htr : (mainRun env w).1
        = titleEvents
          ++ ([.netConnect connectTimeoutSeconds,
               .logInfo "Successfully connected to Couchbase cluster."]
            ++ [.netEmbed w.questionInput, .netSearch c.id]
            ++ topHandlerEvents err.msg) := by
      simp [mainRun, hvs, mainAfterEnv, initialize_cluster, hconn, hq, hv, hs]
    refine ⟨⟨?_, ?_, ?_, ?_⟩, htr⟩
    · simp [mainRun, hvs, mainAfterEnv, initialize_cluster, hconn, hq, hv, hs]
    · rw [htr]; simp [titleEvents, topHandlerEvents]
    · rw [htr]; simp [titleEvents, topHandlerEvents]
    · intro s hmem
      rw [htr] at hmem
      simp [titleEvents, topHandlerEvents] at hmem
      exact hmem
  · intro v docs hv hsr hcr
    have htr : (mainRun env w).1
        = titleEvents
          ++ ([.netConnect connectTimeoutSeconds,
               .logInfo "Successfully connected to Couchbase cluster."]
            ++ [.netEmbed w.questionInput, .netSearch c.id,
                .netComplete (assemble docs w.questionInput)]
            ++ topHandlerEvents err.msg) := by
      simp [mainRun, hvs, mainAfterEnv, initialize_cluster, hconn, hq, hv, hsr, hcr]
    refine ⟨⟨?_, ?_, ?_, ?_⟩, htr⟩
    · simp [mainRun, hvs, mainAfterEnv, initialize_cluster, hconn, hq, hv, hsr, hcr]
    · rw [htr]; simp [titleEvents, topHandlerEvents]
    · rw [htr]; simp [titleEvents, topHandlerEvents]
    · intro s hmem
      rw [htr] at hmem
      simp [titleEvents, topHandlerEvents] at hmem
      exact hmem

/-- Witness for C7: the run stays alive at each of the three concrete
failing services. -/
theorem external_service_error_no_answer_witness :
    (mainRun envFull worldEmbedFail).2 = .finished
    ∧ (mainRun envFull worldSearchFail).2 = .finished
    ∧ (mainRun envFull worldCompleteFail).2 = .finished :=
  ⟨(((external_service_error_no_answer envFull worldEmbedFail ⟨0⟩
      ⟨"embedding auth failure"⟩ (by decide) rfl (by decide)).1 rfl).1).1,
   (((external_service_error_no_answer envFull worldSearchFail ⟨0⟩
      ⟨"search index unavailable"⟩ (by decide) rfl (by decide)).2.1 () rfl rfl).1).1,
   (((external_service_error_no_answer envFull worldCompleteFail ⟨0⟩
      ⟨"quota exceeded"⟩ (by decide) rfl (by decide)).2.2 ()
      ["Great ocean view, friendly staff"] rfl rfl rfl).1).1⟩

/-- Within one script execution the connect effect occurs exactly once, no
close effect ever occurs, and every similarity-search effect uses the id
of the handle returned by that execution's own connect. -/
theorem mainAfterEnv_handle_facts {Vec : Type} (w : World Vec) :
    (mainAfterEnv w).1.countP Event.isConnect = 1
    ∧ (∀ i, Event.netClose i ∉ (mainAfterEnv w).1)
    ∧ (∀ c, w.connectResult = .ok c →
        ∀ i, Event.netSearch i ∈ (mainAfterEnv w).1 → i = c.id) := by
  rcases hc : w.connectResult with e | c
  · refine ⟨?_, ?_, ?_⟩
    · simp [mainAfterEnv, initialize_cluster, hc, topHandlerEvents,
        Event.isConnect, List.countP_cons, List.countP_append]
    · intro i
      simp [mainAfterEnv, initialize_cluster, hc, topHandlerEvents]
    · intro c2 hcc
      exact absurd hcc (by simp)
  · by_cases hq : w.questionInput = ""
    · refine ⟨?_, ?_, ?_⟩
      · simp [mainAfterEnv, initialize_cluster, hc, hq, Event.isConnect,
          List.countP_cons]
      · intro i
        simp [mainAfterEnv, initialize_cluster, hc, hq]
      · intro c2 hcc i hi
        simp [mainAfterEnv, initialize_cluster, hc, hq] at hi
    · rcases he : w.embedResult w.questionInput with err | v
      · refine ⟨?_, ?_, ?_⟩
        · simp [mainAfterEnv, initialize_cluster, hc, hq, he, topHandlerEvents,
            Event.isConnect, List.countP_cons, List.countP_append]
        · intro i
          simp [mainAfterEnv, initialize_cluster, hc, hq, he, topHandlerEvents]
        · intro c2 hcc i hi
          simp [mainAfterEnv, initialize_cluster, hc, hq, he, topHandlerEvents] at hi
      · rcases hs : w.searchResult v with err2 | docs
        · refine ⟨?_, ?_, ?_⟩
          · simp [mainAfterEnv, initialize_cluster, hc, hq, he, hs, topHandlerEvents,
              Event.isConnect, List.countP_cons, List.countP_append]
          · intro i
            simp [mainAfterEnv, initialize_cluster, hc, hq, he, hs, topHandlerEvents]
          · intro c2 hcc i hi
            injection hcc with hcc2
            subst hcc2
            simp [mainAfterEnv, initialize_cluster, hc, hq, he, hs,
              topHandlerEvents] at hi
            exact hi
        · rcases hr : w.completeResult (assemble docs w.questionInput) with err3 | ans
          · refine ⟨?_, ?_, ?_⟩
            · simp [mainAfterEnv, initialize_cluster, hc, hq, he, hs, hr,
                topHandlerEvents, Event.isConnect, List.countP_cons,
                List.countP_append]
            · intro i
              simp [mainAfterEnv, initialize_cluster, hc, hq, he, hs, hr,
                topHandlerEvents]
            · intro c2 hcc i hi
              injection hcc with hcc2
              subst hcc2
              simp [mainAfterEnv, initialize_cluster, hc, hq, he, hs, hr,
                topHandlerEvents] at hi
              exact hi
          · refine ⟨?_, ?_, ?_⟩
            · simp [mainAfterEnv, initialize_cluster, hc, hq, he, hs, hr,
                Event.isConnect, List.countP_cons, List.countP_append]
            · intro i
              simp [mainAfterEnv, initialize_cluster, hc, hq, he, hs, hr]
            · intro c2 hcc i hi
              injection hcc with hcc2
              subst hcc2
              simp [mainAfterEnv, initialize_cluster, hc, hq, he, hs, hr] at hi
              exact hi

/-- Lift of the per-execution handle facts to a full `main` run with a
complete environment. -/
theorem mainRun_handle_facts {Vec : Type} (env : Env) (w : World Vec)
    (hall : ∀ n ∈ requiredVars, (env n).isSome) :
    (mainRun env w).1.countP Event.isConnect = 1
    ∧ (∀ i, Event.netClose i ∉ (mainRun env w).1)
    ∧ (∀ c, w.connectResult = .ok c →
        ∀ i, Event.netSearch i ∈ (mainRun env w).1 → i = c.id) := by
  obtain ⟨vs, hvs⟩ := readEnvVars_ok_of_present env requiredVars hall
  obtain ⟨h1, h2, h3⟩ := mainAfterEnv_handle_facts w
  have htr : (mainRun env w).1 = titleEvents ++ (mainAfterEnv w).1 := by
    simp [mainRun, hvs]
  refine ⟨?_, ?_, ?_⟩
  · rw [htr, List.countP_append, h1]
    rfl
  · intro i hmem
    rw [htr] at hmem
    rcases List.mem_append.mp hmem with h | h
    · simp [titleEvents] at h
    · exact absurd h (h2 i)
  · intro c hcc i hi
    rw [htr] at hi
    rcases List.mem_append.mp hi with h | h
    · simp [titleEvents] at h
    · exact h3 c hcc i h

/-- C9 counterexample: one process run of the Streamlit app serving two
questions re-executes the script for each of them, and each execution
creates a fresh cluster connection: the process trace holds two connect
effects for two chain invocations, so the handle is not created exactly
once per process run and is re-created between queries. -/
theorem cluster_recreated_between_queries :
    (processTrace envFull [unitWorld, unitWorld2]).countP Event.isConnect = 2
    ∧ (processTrace envFull [unitWorld, unitWorld2]).countP Event.isEmbed = 2 :=
  ⟨by decide, by decide⟩

/-- C9 amended: within each script execution (one interaction) the store
connection is created exactly once and every similarity search of that
execution uses that same handle; no execution ever closes the handle; but
a process run serving several questions re-executes the script and thus
re-creates the connection once per interaction, so the connect count of
the process trace equals the number of interactions. -/
theorem connection_recreated_per_question {Vec : Type} (env : Env)
    (ws : List (World Vec))
    (hall : ∀ n ∈ requiredVars, (env n).isSome) :
    (processTrace env ws).countP Event.isConnect = ws.length
    ∧ (∀ i, Event.netClose i ∉ processTrace env ws)
    ∧ (∀ w ∈ ws, ∀ c, w.connectResult = .ok c →
        (mainRun env w).1.countP Event.isConnect = 1
        ∧ ∀ i, Event.netSearch i ∈ (mainRun env w).1 → i = c.id) := by
  induction ws with
  | nil =>
    refine ⟨rfl, ?_, ?_⟩
    · intro i h
      simp [processTrace] at h
    · intro w hw
      exact absurd hw (List.not_mem_nil w)
  | cons w rest ih =>
    obtain ⟨ih1, ih2, ih3⟩ := ih
    obtain ⟨h1, h2, h3⟩ := mainRun_handle_facts env w hall
    refine ⟨?_, ?_, ?_⟩
    · show ((mainRun env w).1 ++ processTrace env rest).countP Event.isConnect = _
      rw [List.countP_append, h1, ih1, List.length_cons, Nat.add_comm]
    · intro i hmem
      rcases List.mem_append.mp hmem with h | h
      · exact absurd h (h2 i)
      · exact absurd h (ih2 i)
    · intro w2 hw2 c hcc
      rcases List.mem_cons.mp hw2 with h | h
      · subst h
        exact ⟨h1, fun i hi => h3 c hcc i hi⟩
      · exact ih3 w2 h c hcc

/-- Witness for C9 amended: two interactions yield two connect effects. -/
theorem connection_recreated_per_question_witness :
    (processTrace envFull [unitWorld, unitWorld2]).countP Event.isConnect
      = ([unitWorld, unitWorld2] : List (World Unit)).length :=
  (connection_recreated_per_question envFull [unitWorld, unitWorld2] (by decide)).1

/-- C10: when the question input is the empty string the chain is never
invoked: the trace is exactly the title, the introduction, the connect and
its success log, with no embedding, search, or completion effect and no
response written; and conversely an embedding effect in the trace implies
the question was non-empty. -/
theorem empty_question_skips_chain {Vec : Type} (env : Env) (w : World Vec)
    (c : Cluster)
    (hall : ∀ n ∈ requiredVars, (env n).isSome)
    (hconn : w.connectResult = .ok c) :
    (w.questionInput = "" →
      (mainRun env w).1
        = titleEvents ++ [.netConnect connectTimeoutSeconds,
            .logInfo "Successfully connected to Couchbase cluster."]
      ∧ (mainRun env w).2 = .finished)
    ∧ (∀ q, Event.netEmbed q ∈ (mainRun env w).1 → ¬ w.questionInput = "") := by
  obtain ⟨vs, hvs⟩ := readEnvVars_ok_of_present env requiredVars hall
  constructor
  · intro hq
    constructor
    · simp [mainRun, hvs, mainAfterEnv, initialize_cluster, hconn, hq]
    · simp [mainRun, hvs, mainAfterEnv, initialize_cluster, hconn, hq]
  · intro q hqmem hq
    simp [mainRun, hvs, mainAfterEnv, initialize_cluster, hconn, hq, titleEvents] at hqmem

/-- Witness for C10 at a concrete empty-question run. -/
theorem empty_question_skips_chain_witness :
    (mainRun envFull worldEmptyQuestion).1
      = titleEvents ++ [.netConnect connectTimeoutSeconds,
          .logInfo "Successfully connected to Couchbase cluster."] :=
  ((empty_question_skips_chain envFull worldEmptyQuestion ⟨0⟩ (by decide) rfl).1 rfl).1

end RagApp
